import Mathlib

/-
Verification of the rusted-chain core: the canonical JSON value model, the
three backend adapters (Claude, Gemini, OpenAI), and the bounded
tool-execution loops of lib.rs, shallowly embedded in Lean.

Conventions of the embedding:
* `serde_json::Value` is modelled by `Json` below; numbers are modelled as
  integers (no claim under scrutiny involves floating point payloads).
* Python exceptions raised through pyo3 are modelled as a kind plus message.
* The network is an oracle: each exchange consumes one `Transport` event,
  which carries either a transport failure or an HTTP response (status,
  raw body text, and the outcome of structural parsing of the body).
-/

/-- JSON values, mirroring serde_json::Value with integer numbers.
Objects keep insertion order as a field list. -/
inductive Json where
  | null : Json
  | bool (b : Bool) : Json
  | num (n : Int) : Json
  | str (s : String) : Json
  | arr (xs : List Json) : Json
  | obj (fields : List (String × Json)) : Json

/-- Whether a JSON value is an object, mirroring matching on
serde_json::Value::Object. -/
def Json.isObj : Json → Bool
  | .obj _ => true
  | _ => false

/-- Escape of one character inside a JSON string literal (quote and
backslash; control-character escapes are not exercised by any claim). -/
def escapeFragment (c : Char) : String :=
  if c = '\"' then "\\\"" else if c = '\\' then "\\\\" else String.singleton c

/-- Escape of the characters of a string in order. -/
def escapeChars : List Char → String
  | [] => ""
  | c :: rest => escapeFragment c ++ escapeChars rest

/-- Escape of a string for JSON serialization. -/
def escapeString (s : String) : String := escapeChars s.data

mutual
/-- Compact JSON serialization, mirroring serde_json::to_string. -/
def Json.render : Json → String
  | .null => "null"
  | .bool b => if b then "true" else "false"
  | .num n => toString n
  | .str s => "\"" ++ escapeString s ++ "\""
  | .arr xs => "[" ++ renderArray xs ++ "]"
  | .obj kvs => "\x7b" ++ renderFields kvs ++ "\x7d"

/-- Comma-separated rendering of array elements. -/
def renderArray : List Json → String
  | [] => ""
  | [x] => Json.render x
  | x :: rest => Json.render x ++ "," ++ renderArray rest

/-- Comma-separated rendering of object fields. -/
def renderFields : List (String × Json) → String
  | [] => ""
  | [(k, v)] => "\"" ++ escapeString k ++ "\":" ++ Json.render v
  | (k, v) :: rest =>
      "\"" ++ escapeString k ++ "\":" ++ Json.render v ++ "," ++ renderFields rest
end

/-- Embedding of lib.rs wrap_tool_result: an object passes through, any
other value is wrapped under the synthetic key "result". -/
def wrap_tool_result (value : Json) : Json :=
  match value with
  | .obj fields => .obj fields
  | other => .obj [("result", other)]

/-- Python exception classes used by the pyo3 layer of lib.rs. -/
inductive PyExcKind where
  | runtimeError
  | keyError
  | valueError
  | notImplementedError
deriving DecidableEq

/-- A raised Python exception: its class and its message. -/
structure PyErr where
  kind : PyExcKind
  msg : String
deriving DecidableEq

/-- Embedding of error.rs LangRainError. reqwest::Error inside Network is
modelled by its display string. -/
inductive LangRainError where
  | api (status : Nat) (message : String)
  | network (message : String)
  | parseError (message : String)
  | toolNotFound (name : String)
  | maxIterations (n : Nat)
  | toolExecutionNotSupported (name : String)
  | noResponse
deriving DecidableEq

/-- Display rendering of LangRainError per the thiserror attributes in
error.rs. -/
def LangRainError.displayMessage : LangRainError → String
  | .api status message => "API error " ++ toString status ++ ": " ++ message
  | .network message => "Network error: " ++ message
  | .parseError message => "Failed to parse response: " ++ message
  | .toolNotFound name => "Tool \x27" ++ name ++ "\x27 not found in tools_dict"
  | .maxIterations n =>
      "Max iterations (" ++ toString n ++ ") reached without getting a final answer"
  | .toolExecutionNotSupported name =>
      "Tool \x27" ++ name ++
        "\x27 was requested but invoke() only supports tool schemas. Use run_with_tools(query, tools_dict) to provide executable tool functions."
  | .noResponse => "No valid response from API"

/-- Embedding of error.rs From<LangRainError> for pyo3::PyErr. -/
def LangRainError.toPyErr (e : LangRainError) : PyErr :=
  match e with
  | .toolNotFound _ => ⟨.keyError, e.displayMessage⟩
  | .toolExecutionNotSupported _ => ⟨.notImplementedError, e.displayMessage⟩
  | _ => ⟨.runtimeError, e.displayMessage⟩

/-- Embedding of error.rs From<String> for LangRainError: every string
error becomes ParseError. -/
def LangRainError.ofString (s : String) : LangRainError := .parseError s

/-- An HTTP status as seen on the wire: the numeric code together with its
Display rendering (reqwest::StatusCode prints code plus canonical reason,
e.g. "500 Internal Server Error"); the rendering is wire-given data here. -/
structure HttpStatus where
  code : Nat
  display : String

/-- Embedding of reqwest StatusCode::is_success (codes 200..=299). -/
def httpIsSuccess (c : Nat) : Bool := 200 ≤ c && c < 300

/-- An HTTP response for a body that structurally parses to β: status, raw
body text (response.text(), empty when unreadable), and the outcome of
response.json::<β>() with the serde error message on failure. -/
structure WireResp (β : Type) where
  status : HttpStatus
  bodyText : String
  parsed : Except String β

/-- One network event consumed by one adapter exchange: either a
transport-level send failure (reqwest error display string) or a response. -/
inductive Transport (β : Type) where
  | netFail (msg : String)
  | resp (r : WireResp β)

/-- Shared embedding of the identical transport block of all three
adapters (claude.rs 130-150, gemini.rs send_request, openai.rs 161-179):
send failure, non-success status, and body-parse failure each map to a
formatted error string; a parsed successful response passes through. -/
def sendAndParse {β : Type} : Transport β → Except String β
  | .netFail m => .error ("Failed to send request: " ++ m)
  | .resp r =>
      if httpIsSuccess r.status.code then
        match r.parsed with
        | .ok b => .ok b
        | .error m => .error ("Failed to parse response: " ++ m)
      else
        .error ("API Error " ++ r.status.display ++ ": " ++ r.bodyText)

/-- Claude content blocks (claude.rs ContentBlock). -/
inductive ClaudeBlock where
  | text (t : String)
  | toolUse (id : String) (name : String) (input : Json)
  | toolResult (toolUseId : String) (content : Json)

/-- Claude wire message (claude.rs Message): a role and ordered blocks. -/
structure ClaudeMessage where
  role : String
  content : List ClaudeBlock

/-- Claude tool call descriptor (claude.rs ToolCall). -/
structure ClaudeToolCall where
  name : String
  args : Json
  id : String

/-- Claude exchange outcome (claude.rs ClaudeResponse). -/
inductive ClaudeResponse where
  | text (t : String)
  | toolCall (tc : ClaudeToolCall)

/-- Embedding of the classification loop of Claude::exchange (claude.rs
157-183): the first tool_use block returns immediately; the first text
block is remembered and used only if no tool_use block exists; tool_result
blocks are skipped; no usable block is the fixed error. The accumulator is
the text_response variable of the source. -/
def claudeScanBlocks : List ClaudeBlock → Option String → Except String ClaudeResponse
  | [], some t => .ok (.text t)
  | [], none => .error "No response generated."
  | .toolUse id name input :: _, _ => .ok (.toolCall ⟨name, input, id⟩)
  | .text t :: rest, acc =>
      claudeScanBlocks rest (match acc with | some a => some a | none => some t)
  | .toolResult _ _ :: rest, acc => claudeScanBlocks rest acc

/-- Embedding of Claude::exchange: transport handling, then the assistant
message is rebuilt from the response content and the blocks are scanned. -/
def claudeExchange (ev : Transport (List ClaudeBlock)) :
    Except String (ClaudeResponse × ClaudeMessage) := do
  let content ← sendAndParse ev
  let assistantMessage : ClaudeMessage := ⟨"assistant", content⟩
  match claudeScanBlocks content none with
  | .ok r => .ok (r, assistantMessage)
  | .error e => .error e

/-- Gemini content parts (gemini.rs Part). -/
inductive GeminiPart where
  | text (t : String)
  | functionCall (name : String) (args : Json)
  | functionResponse (name : String) (response : Json)

/-- Gemini wire content (gemini.rs Content): parts plus optional role. -/
structure GeminiContent where
  parts : List GeminiPart
  role : Option String

/-- Gemini response candidate (gemini.rs Candidate, content flattened to
its parts and role fields). -/
structure GeminiCandidate where
  parts : List GeminiPart
  role : Option String

/-- Gemini wire response body (gemini.rs GenerateContentResponse):
an optional candidates array. -/
def GenWire : Type := Option (List GeminiCandidate)

/-- Gemini tool call descriptor (gemini.rs ToolCall, no correlation id). -/
structure GeminiToolCall where
  name : String
  args : Json

/-- Gemini exchange outcome (gemini.rs GeminiResponse). -/
inductive GeminiResponse where
  | text (t : String)
  | toolCall (tc : GeminiToolCall)

/-- Embedding of the part scan shared by Gemini::exchange (gemini.rs
270-285) and Gemini::invoke_with_response (gemini.rs 202-215): the first
part that is a text or a functionCall decides the outcome, whichever
comes first; functionResponse parts are skipped. -/
def geminiScanParts : List GeminiPart → Option GeminiResponse
  | [] => none
  | .text t :: _ => some (.text t)
  | .functionCall n a :: _ => some (.toolCall ⟨n, a⟩)
  | .functionResponse _ _ :: rest => geminiScanParts rest

/-- Embedding of Gemini::exchange (gemini.rs 257-291): transport handling
via send_request, then the first candidate is scanned; a missing
candidates array, an empty one, or a candidate with no usable part all
fall through to the fixed error. -/
def geminiExchange (ev : Transport GenWire) :
    Except String (GeminiResponse × GeminiContent) := do
  let wire ← sendAndParse ev
  match wire with
  | some (c :: _) =>
      let assistantContent : GeminiContent := ⟨c.parts, c.role⟩
      match geminiScanParts c.parts with
      | some r => .ok (r, assistantContent)
      | none => .error "No valid response from Gemini"
  | _ => .error "No valid response from Gemini"

/-- Embedding of Gemini::invoke_with_response (gemini.rs 188-220): same
transport handling and part scan, without returning the assistant turn. -/
def geminiInvokeCore (ev : Transport GenWire) : Except String GeminiResponse := do
  let wire ← sendAndParse ev
  match wire with
  | some (c :: _) =>
      match geminiScanParts c.parts with
      | some r => .ok r
      | none => .error "No valid response from Gemini"
  | _ => .error "No valid response from Gemini"

/-- OpenAI tool-call arguments as carried on the wire: a JSON-encoded
string. We model it by its parse outcome, mirroring
serde_json::from_str(&arguments): either the decoded value or an
unparseable raw string. -/
inductive OpenAIArgsWire where
  | decoded (j : Json)
  | malformed (raw : String)

/-- Embedding of serde_json::from_str(&arguments).unwrap_or(Value::Null)
in OpenAI::chat (openai.rs 192-194). -/
def decodeArgs : OpenAIArgsWire → Json
  | .decoded j => j
  | .malformed _ => .null

/-- OpenAI wire function call (openai.rs FunctionCall). -/
structure OpenAIFunctionCall where
  name : String
  arguments : OpenAIArgsWire

/-- OpenAI wire tool call entry (openai.rs ToolCallResponse). -/
structure OpenAIToolCallResponse where
  id : String
  toolType : String
  function : OpenAIFunctionCall

/-- OpenAI response message (openai.rs MessageResponse). -/
structure OpenAIMessageResponse where
  role : String
  content : Option String
  toolCalls : Option (List OpenAIToolCallResponse)

/-- OpenAI conversation message (openai.rs Message). -/
structure OpenAIMessage where
  role : String
  content : String
  name : Option String
  toolCallId : Option String
  toolCalls : Option (List OpenAIToolCallResponse)

/-- OpenAI tool call descriptor (openai.rs ToolCall). -/
structure OpenAIToolCall where
  name : String
  args : Json
  id : String

/-- OpenAI exchange outcome (openai.rs OpenAIResponse). -/
inductive OpenAIResponse where
  | text (t : String)
  | toolCall (tc : OpenAIToolCall)

/-- Embedding of OpenAI::chat (openai.rs 140-213): transport handling,
then the first choice decides — a nonempty tool_calls array yields the
first tool call (its arguments string decoded, unparseable becoming null)
regardless of any text content; otherwise present content yields text;
otherwise, or with no choice at all, the fixed error. -/
def openaiChat (ev : Transport (List OpenAIMessageResponse)) :
    Except String (OpenAIResponse × OpenAIMessage) := do
  let choices ← sendAndParse ev
  match choices with
  | c :: _ =>
      let assistantMessage : OpenAIMessage :=
        ⟨c.role, c.content.getD "", none, none, c.toolCalls⟩
      match c.toolCalls with
      | some (tc :: _) =>
          .ok (.toolCall ⟨tc.function.name, decodeArgs tc.function.arguments, tc.id⟩,
               assistantMessage)
      | _ =>
          match c.content with
          | some s => .ok (.text s, assistantMessage)
          | none => .error "No response generated."
  | [] => .error "No response generated."

/-- A tool executable: receives the decoded arguments value and either
produces a result value (depythonized, failures becoming null per
unwrap_or in the source) or raises a Python exception. Whether the Python
call passes kwargs or no arguments is internal to the callable. -/
def ToolFn : Type := Json → Except PyErr Json

/-- A caller-supplied tool as the binding layer sees it: the result of
getattr("__name__") (none when the attribute is missing) and the
executable itself. A tools argument of None is modelled by the empty
list. -/
structure PyTool where
  name : Option String
  fn : ToolFn

/-- The tools dictionary built by run(): association list with Python
dict semantics (set_item replaces an existing key). -/
def ToolDict : Type := List (String × ToolFn)

/-- Python dict set_item: replace the binding when the key exists,
otherwise append. -/
def dictSet : ToolDict → String → ToolFn → ToolDict
  | [], n, f => [(n, f)]
  | (k, g) :: rest, n, f =>
      if k = n then (k, f) :: rest else (k, g) :: dictSet rest n f

/-- Python dict get_item on the tools dictionary. -/
def lookupTool : ToolDict → String → Option ToolFn
  | [], _ => none
  | (k, g) :: rest, n => if k = n then some g else lookupTool rest n

/-- Embedding of the registry construction of every run() (lib.rs 289-299,
445-455, 601-611): iterate the supplied tools in order and insert each one
that has a discoverable __name__; a tool without one is skipped without
error. -/
def buildToolsDict (tools : List PyTool) : ToolDict :=
  tools.foldl
    (fun d t =>
      match t.name with
      | some n => dictSet d n t.fn
      | none => d)
    []

/-- Whether the has_tools flag of run() ends up true: at least one
supplied tool has a discoverable name. -/
def hasNamedTool (tools : List PyTool) : Bool :=
  tools.any (fun t => t.name.isSome)

/-- The zero-tools configuration error message of every run(). -/
def zeroToolsMsg : String :=
  "run() requires at least one callable tool. Use invoke() for tool-free calls."

/-- The max-iterations error message raised by every run(). -/
def maxIterMsg : String :=
  "Max iterations reached without getting a final answer"

/-- The tool-not-found error message raised by every run(). -/
def toolNotFoundMsg (name : String) : String :=
  "Tool \x27" ++ name ++ "\x27 not found"

/-- Embedding of lib.rs MAX_TOOL_ITERATIONS. -/
def MAX_TOOL_ITERATIONS : Nat := 10

/-- Result of one run() invocation, with ghost instrumentation: the final
conversation vector, the number of adapter exchanges performed, the names
of the tools actually executed in order, and a trace recording for each
iteration that produced an assistant turn that turn plus the tool-result
turn injected after it, when one was. -/
structure RunOutcome (Turn : Type) where
  result : Except PyErr String
  conversation : List Turn
  exchanges : Nat
  executed : List String
  trace : List (Turn × Option Turn)

/-- The initial Gemini conversation turn of run() (lib.rs 308-313). -/
def geminiInitTurn (query : String) : GeminiContent :=
  ⟨[.text query], some "user"⟩

/-- The Gemini tool-result turn injected by run() (lib.rs 350-358): a
function-role content holding the wrapped result under the tool name. -/
def geminiToolResultTurn (name : String) (v : Json) : GeminiContent :=
  ⟨[.functionResponse name (wrap_tool_result v)], some "function"⟩

/-- Embedding of the iteration loop of GeminiModel::run (lib.rs 315-365).
The fuel argument counts the remaining iterations of `for _ in
0..MAX_TOOL_ITERATIONS`, idx the exchanges already performed; conv and
exec accumulate the conversation and the executed tools. An adapter error
maps to PyRuntimeError, an unknown tool to PyKeyError, a tool-raised
exception propagates, and fuel exhaustion raises the max-iterations
runtime error. -/
def geminiLoop (reg : ToolDict) (oracle : Nat → Transport GenWire) :
    Nat → Nat → List GeminiContent → List String → RunOutcome GeminiContent
  | 0, i, conv, exec => ⟨.error ⟨.runtimeError, maxIterMsg⟩, conv, i, exec, []⟩
  | fuel + 1, i, conv, exec =>
    match geminiExchange (oracle i) with
    | .error e => ⟨.error ⟨.runtimeError, e⟩, conv, i + 1, exec, []⟩
    | .ok (resp, asst) =>
      match resp with
      | .text t => ⟨.ok t, conv ++ [asst], i + 1, exec, [(asst, none)]⟩
      | .toolCall tc =>
        match lookupTool reg tc.name with
        | none =>
            ⟨.error ⟨.keyError, toolNotFoundMsg tc.name⟩, conv ++ [asst], i + 1,
             exec, [(asst, none)]⟩
        | some f =>
          match f tc.args with
          | .error pe =>
              ⟨.error pe, conv ++ [asst], i + 1, exec ++ [tc.name], [(asst, none)]⟩
          | .ok v =>
            let rt := geminiToolResultTurn tc.name v
            let out := geminiLoop reg oracle fuel (i + 1) (conv ++ [asst, rt])
                         (exec ++ [tc.name])
            ⟨out.result, out.conversation, out.exchanges, out.executed,
             (asst, some rt) :: out.trace⟩

/-- Embedding of GeminiModel::run (lib.rs 288-366): build the tools
dictionary, fail with ValueError when no tool is nameable, otherwise run
the loop from a single user turn. -/
def geminiRun (tools : List PyTool) (oracle : Nat → Transport GenWire)
    (query : String) : RunOutcome GeminiContent :=
  if hasNamedTool tools then
    geminiLoop (buildToolsDict tools) oracle MAX_TOOL_ITERATIONS 0
      [geminiInitTurn query] []
  else
    ⟨.error ⟨.valueError, zeroToolsMsg⟩, [], 0, [], []⟩

/-- The initial OpenAI conversation message of run() (lib.rs 464-470). -/
def openaiInitTurn (query : String) : OpenAIMessage :=
  ⟨"user", query, none, none, none⟩

/-- The OpenAI tool-result message injected by run() (lib.rs 503-514): a
tool-role message whose content is the serialization of the raw result
value, keyed by the request id — note the absence of wrap_tool_result. -/
def openaiToolResultTurn (id : String) (v : Json) : OpenAIMessage :=
  ⟨"tool", Json.render v, none, some id, none⟩

/-- Embedding of the iteration loop of OpenAIModel::run (lib.rs 472-521),
structured exactly like the Gemini loop. -/
def openaiLoop (reg : ToolDict) (oracle : Nat → Transport (List OpenAIMessageResponse)) :
    Nat → Nat → List OpenAIMessage → List String → RunOutcome OpenAIMessage
  | 0, i, conv, exec => ⟨.error ⟨.runtimeError, maxIterMsg⟩, conv, i, exec, []⟩
  | fuel + 1, i, conv, exec =>
    match openaiChat (oracle i) with
    | .error e => ⟨.error ⟨.runtimeError, e⟩, conv, i + 1, exec, []⟩
    | .ok (resp, asst) =>
      match resp with
      | .text t => ⟨.ok t, conv ++ [asst], i + 1, exec, [(asst, none)]⟩
      | .toolCall tc =>
        match lookupTool reg tc.name with
        | none =>
            ⟨.error ⟨.keyError, toolNotFoundMsg tc.name⟩, conv ++ [asst], i + 1,
             exec, [(asst, none)]⟩
        | some f =>
          match f tc.args with
          | .error pe =>
              ⟨.error pe, conv ++ [asst], i + 1, exec ++ [tc.name], [(asst, none)]⟩
          | .ok v =>
            let rt := openaiToolResultTurn tc.id v
            let out := openaiLoop reg oracle fuel (i + 1) (conv ++ [asst, rt])
                         (exec ++ [tc.name])
            ⟨out.result, out.conversation, out.exchanges, out.executed,
             (asst, some rt) :: out.trace⟩

/-- Embedding of OpenAIModel::run (lib.rs 444-522). -/
def openaiRun (tools : List PyTool)
    (oracle : Nat → Transport (List OpenAIMessageResponse))
    (query : String) : RunOutcome OpenAIMessage :=
  if hasNamedTool tools then
    openaiLoop (buildToolsDict tools) oracle MAX_TOOL_ITERATIONS 0
      [openaiInitTurn query] []
  else
    ⟨.error ⟨.valueError, zeroToolsMsg⟩, [], 0, [], []⟩

/-- The initial Claude conversation message of run() (lib.rs 620-625). -/
def claudeInitTurn (query : String) : ClaudeMessage :=
  ⟨"user", [.text query]⟩

/-- The Claude tool-result message injected by run() (lib.rs 662-668): a
user-role message holding one tool_result block with the wrapped result
and the request correlation id. -/
def claudeToolResultTurn (id : String) (v : Json) : ClaudeMessage :=
  ⟨"user", [.toolResult id (wrap_tool_result v)]⟩

/-- Embedding of the iteration loop of ClaudeModel::run (lib.rs 627-675),
structured exactly like the Gemini loop. -/
def claudeLoop (reg : ToolDict) (oracle : Nat → Transport (List ClaudeBlock)) :
    Nat → Nat → List ClaudeMessage → List String → RunOutcome ClaudeMessage
  | 0, i, conv, exec => ⟨.error ⟨.runtimeError, maxIterMsg⟩, conv, i, exec, []⟩
  | fuel + 1, i, conv, exec =>
    match claudeExchange (oracle i) with
    | .error e => ⟨.error ⟨.runtimeError, e⟩, conv, i + 1, exec, []⟩
    | .ok (resp, asst) =>
      match resp with
      | .text t => ⟨.ok t, conv ++ [asst], i + 1, exec, [(asst, none)]⟩
      | .toolCall tc =>
        match lookupTool reg tc.name with
        | none =>
            ⟨.error ⟨.keyError, toolNotFoundMsg tc.name⟩, conv ++ [asst], i + 1,
             exec, [(asst, none)]⟩
        | some f =>
          match f tc.args with
          | .error pe =>
              ⟨.error pe, conv ++ [asst], i + 1, exec ++ [tc.name], [(asst, none)]⟩
          | .ok v =>
            let rt := claudeToolResultTurn tc.id v
            let out := claudeLoop reg oracle fuel (i + 1) (conv ++ [asst, rt])
                         (exec ++ [tc.name])
            ⟨out.result, out.conversation, out.exchanges, out.executed,
             (asst, some rt) :: out.trace⟩

/-- Embedding of ClaudeModel::run (lib.rs 600-676). -/
def claudeRun (tools : List PyTool) (oracle : Nat → Transport (List ClaudeBlock))
    (query : String) : RunOutcome ClaudeMessage :=
  if hasNamedTool tools then
    claudeLoop (buildToolsDict tools) oracle MAX_TOOL_ITERATIONS 0
      [claudeInitTurn query] []
  else
    ⟨.error ⟨.valueError, zeroToolsMsg⟩, [], 0, [], []⟩

/-- The value returned to Python by invoke() (lib.rs AgentResponse, with
the tool-call arguments already serialized as in lib.rs ToolCall.args). -/
inductive AgentResponse where
  | text (t : String)
  | toolCall (name : String) (args : String)
deriving DecidableEq

/-- Embedding of GeminiModel::invoke (lib.rs 264-284): one exchange via
invoke_with_response; an adapter error becomes PyRuntimeError; a tool-call
outcome is returned to the caller with its arguments serialized
(serde_json::to_string, total here, so the "\x7b\x7d" fallback of the
source is unreachable). -/
def geminiInvoke (ev : Transport GenWire) : Except PyErr AgentResponse :=
  match geminiInvokeCore ev with
  | .error e => .error ⟨.runtimeError, e⟩
  | .ok (.text t) => .ok (.text t)
  | .ok (.toolCall tc) => .ok (.toolCall tc.name (Json.render tc.args))

/-- Embedding of OpenAIModel::invoke (lib.rs 420-440): one exchange via
invoke_with_response, which delegates to chat and drops the assistant
message (openai.rs 127-138). -/
def openaiInvoke (ev : Transport (List OpenAIMessageResponse)) :
    Except PyErr AgentResponse :=
  match openaiChat ev with
  | .error e => .error ⟨.runtimeError, e⟩
  | .ok (.text t, _) => .ok (.text t)
  | .ok (.toolCall tc, _) => .ok (.toolCall tc.name (Json.render tc.args))

/-- Embedding of ClaudeModel::invoke (lib.rs 576-596): one exchange via
invoke_with_response, which delegates to exchange and drops the assistant
message (claude.rs 105-115). -/
def claudeInvoke (ev : Transport (List ClaudeBlock)) : Except PyErr AgentResponse :=
  match claudeExchange ev with
  | .error e => .error ⟨.runtimeError, e⟩
  | .ok (.text t, _) => .ok (.text t)
  | .ok (.toolCall tc, _) => .ok (.toolCall tc.name (Json.render tc.args))

/-- A transport event delivering a successfully parsed body with a 200
status, used for concrete scenarios. -/
def okEv {β : Type} (b : β) : Transport β :=
  .resp ⟨⟨200, "200 OK"⟩, "", .ok b⟩

/-- Claim C10: wrap_tool_result always yields an object, is idempotent,
and is the identity exactly on values that are already objects. -/
theorem claim10_wrap_tool_result (v : Json) :
    (wrap_tool_result v).isObj = true ∧
    wrap_tool_result (wrap_tool_result v) = wrap_tool_result v ∧
    (wrap_tool_result v = v ↔ v.isObj = true) := by
  cases v <;> simp [wrap_tool_result, Json.isObj]

/-- First tool_use block of a Claude response, stated from the
classification policy of the spec. -/
def claudeFirstToolUse : List ClaudeBlock → Option (String × String × Json)
  | [] => none
  | .toolUse id name input :: _ => some (id, name, input)
  | _ :: rest => claudeFirstToolUse rest

/-- First text block of a Claude response, stated from the classification
policy of the spec. -/
def claudeFirstText : List ClaudeBlock → Option String
  | [] => none
  | .text t :: _ => some t
  | _ :: rest => claudeFirstText rest

/-- Option priority, modelling the first-text accumulator update. -/
def optOr {α : Type} : Option α → Option α → Option α
  | some a, _ => some a
  | none, b => b

/-- Claude block scan characterized against the spec-side first-block
functions, for any accumulator state. -/
lemma claudeScanBlocks_spec (blocks : List ClaudeBlock) (acc : Option String) :
    claudeScanBlocks blocks acc =
      match claudeFirstToolUse blocks with
      | some (id, n, a) => .ok (.toolCall ⟨n, a, id⟩)
      | none =>
        match optOr acc (claudeFirstText blocks) with
        | some t => .ok (.text t)
        | none => .error "No response generated." := by
  induction blocks generalizing acc with
  | nil => cases acc <;> rfl
  | cons b rest ih =>
    cases b with
    | text t =>
        cases acc <;>
          simp [claudeScanBlocks, claudeFirstToolUse, claudeFirstText, optOr, ih]
    | toolUse id n a => rfl
    | toolResult x y =>
        simp [claudeScanBlocks, claudeFirstToolUse, claudeFirstText, ih]

/-- Outcome contributed by one Gemini part, stated from the spec: a text
part yields a final text, a functionCall part a tool call, a
functionResponse part nothing. -/
def geminiPartOutcome : GeminiPart → Option GeminiResponse
  | .text t => some (.text t)
  | .functionCall n a => some (.toolCall ⟨n, a⟩)
  | .functionResponse _ _ => none

/-- Whether a Gemini part list contains a functionCall part. -/
def hasFunctionCallPart (ps : List GeminiPart) : Bool :=
  ps.any (fun p => match p with | .functionCall _ _ => true | _ => false)

/-- Claim C1 (counterexample): a Gemini wire response whose candidate
holds a text part followed by a functionCall part is classified as
FinalText, although a tool-invocation segment exists in the response —
the first tool-invocation segment does not win over an earlier text
segment for the Gemini adapter. -/
theorem claim1_counterexample :
    geminiExchange (okEv (some [⟨[GeminiPart.text "hi",
        GeminiPart.functionCall "f" Json.null], some "model"⟩])) =
      .ok (GeminiResponse.text "hi",
        ⟨[GeminiPart.text "hi", GeminiPart.functionCall "f" Json.null], some "model"⟩) ∧
    hasFunctionCallPart [GeminiPart.text "hi", GeminiPart.functionCall "f" Json.null]
      = true :=
  ⟨rfl, rfl⟩

/-- Claim C1 (amended): outcome classification per adapter. Claude scans
blocks in order and the first tool_use wins even when text blocks precede
or follow it; the first text block is used only when no tool_use exists;
neither kind is the fixed failure. Gemini classifies by the first part
that is a text or a functionCall, whichever comes first — a tool call
wins only when no text part precedes it — and a candidate with neither is
the fixed failure. OpenAI classifies a nonempty tool_calls array as a
tool call regardless of text content, otherwise present content as text,
otherwise fails. -/
theorem claim1_classification :
    (∀ blocks : List ClaudeBlock,
        claudeExchange (okEv blocks) =
          match claudeFirstToolUse blocks with
          | some (id, n, a) =>
              .ok (.toolCall ⟨n, a, id⟩, (⟨"assistant", blocks⟩ : ClaudeMessage))
          | none =>
            match claudeFirstText blocks with
            | some t => .ok (.text t, (⟨"assistant", blocks⟩ : ClaudeMessage))
            | none => .error "No response generated.") ∧
    (∀ ps : List GeminiPart, geminiScanParts ps = ps.findSome? geminiPartOutcome) ∧
    (∀ (ps : List GeminiPart) (role : Option String) (rest : List GeminiCandidate),
        geminiExchange (okEv (some (⟨ps, role⟩ :: rest))) =
          match ps.findSome? geminiPartOutcome with
          | some r => .ok (r, (⟨ps, role⟩ : GeminiContent))
          | none => .error "No valid response from Gemini") ∧
    (∀ (role : String) (co : Option String)
        (otc : Option (List OpenAIToolCallResponse))
        (rest : List OpenAIMessageResponse),
        openaiChat (okEv (⟨role, co, otc⟩ :: rest)) =
          match otc with
          | some (tc :: _) =>
              .ok (.toolCall ⟨tc.function.name, decodeArgs tc.function.arguments, tc.id⟩,
                   (⟨role, co.getD "", none, none, otc⟩ : OpenAIMessage))
          | _ =>
            match co with
            | some s => .ok (.text s, (⟨role, co.getD "", none, none, otc⟩ : OpenAIMessage))
            | none => .error "No response generated.") := by
  refine ⟨?_, ?_, ?_, ?_⟩
  · intro blocks
    have hscan := claudeScanBlocks_spec blocks none
    show (match claudeScanBlocks blocks none with
          | .ok r => Except.ok (r, (⟨"assistant", blocks⟩ : ClaudeMessage))
          | .error e => Except.error e) = _
    rw [hscan]
    cases h1 : claudeFirstToolUse blocks with
    | some v => obtain ⟨id, n, a⟩ := v; rfl
    | none =>
      cases h2 : claudeFirstText blocks with
      | some t => rfl
      | none => rfl
  · intro ps
    induction ps with
    | nil => rfl
    | cons p rest ih =>
      cases p <;> simp [geminiScanParts, geminiPartOutcome, List.findSome?, ih]
  · intro ps role rest
    show (match geminiScanParts ps with
          | some r => Except.ok (r, (⟨ps, role⟩ : GeminiContent))
          | none => Except.error "No valid response from Gemini") = _
    have hfind : geminiScanParts ps = ps.findSome? geminiPartOutcome := by
      induction ps with
      | nil => rfl
      | cons p rest2 ih =>
        cases p <;> simp [geminiScanParts, geminiPartOutcome, List.findSome?, ih]
    rw [hfind]
  · intro role co otc rest
    cases otc with
    | none => cases co <;> rfl
    | some tcs => cases tcs with
      | nil => cases co <;> rfl
      | cons tc more => rfl

/-- Turns contributed to the conversation by the iterations of a run, in
order: each iteration's assistant turn followed by its injected
tool-result turn when a tool was executed. -/
def flatTrace {Turn : Type} : List (Turn × Option Turn) → List Turn
  | [] => []
  | (a, none) :: rest => a :: flatTrace rest
  | (a, some r) :: rest => a :: r :: flatTrace rest

/-- Unfolding equation for one iteration of the Gemini loop. -/
lemma geminiLoop_succ (reg : ToolDict) (oracle : Nat → Transport GenWire)
    (fuel i : Nat) (conv : List GeminiContent) (exec : List String) :
    geminiLoop reg oracle (fuel + 1) i conv exec =
      match geminiExchange (oracle i) with
      | .error e => ⟨.error ⟨.runtimeError, e⟩, conv, i + 1, exec, []⟩
      | .ok (resp, asst) =>
        match resp with
        | .text t => ⟨.ok t, conv ++ [asst], i + 1, exec, [(asst, none)]⟩
        | .toolCall tc =>
          match lookupTool reg tc.name with
          | none =>
              ⟨.error ⟨.keyError, toolNotFoundMsg tc.name⟩, conv ++ [asst], i + 1,
               exec, [(asst, none)]⟩
          | some f =>
            match f tc.args with
            | .error pe =>
                ⟨.error pe, conv ++ [asst], i + 1, exec ++ [tc.name], [(asst, none)]⟩
            | .ok v =>
              let rt := geminiToolResultTurn tc.name v
              let out := geminiLoop reg oracle fuel (i + 1) (conv ++ [asst, rt])
                           (exec ++ [tc.name])
              ⟨out.result, out.conversation, out.exchanges, out.executed,
               (asst, some rt) :: out.trace⟩ := rfl

/-- The Gemini loop only appends: its final conversation is its starting
conversation followed by the rendering of its trace. -/
lemma geminiLoop_conversation (reg : ToolDict) (oracle : Nat → Transport GenWire) :
    ∀ (fuel i : Nat) (conv : List GeminiContent) (exec : List String),
    (geminiLoop reg oracle fuel i conv exec).conversation
      = conv ++ flatTrace (geminiLoop reg oracle fuel i conv exec).trace := by
  intro fuel
  induction fuel with
  | zero => intro i conv exec; simp [geminiLoop, flatTrace]
  | succ fuel ih =>
    intro i conv exec
    rw [geminiLoop_succ]
    cases h : geminiExchange (oracle i) with
    | error e => simp [flatTrace]
    | ok pr =>
      obtain ⟨resp, asst⟩ := pr
      cases resp with
      | text t => simp [flatTrace]
      | toolCall tc =>
        cases hl : lookupTool reg tc.name with
        | none => simp [flatTrace, hl]
        | some f =>
          cases hf : f tc.args with
          | error pe => simp [flatTrace, hl, hf]
          | ok v => simp [flatTrace, hl, hf, ih]

/-- Unfolding equation for one iteration of the OpenAI loop. -/
lemma openaiLoop_succ (reg : ToolDict)
    (oracle : Nat → Transport (List OpenAIMessageResponse))
    (fuel i : Nat) (conv : List OpenAIMessage) (exec : List String) :
    openaiLoop reg oracle (fuel + 1) i conv exec =
      match openaiChat (oracle i) with
      | .error e => ⟨.error ⟨.runtimeError, e⟩, conv, i + 1, exec, []⟩
      | .ok (resp, asst) =>
        match resp with
        | .text t => ⟨.ok t, conv ++ [asst], i + 1, exec, [(asst, none)]⟩
        | .toolCall tc =>
          match lookupTool reg tc.name with
          | none =>
              ⟨.error ⟨.keyError, toolNotFoundMsg tc.name⟩, conv ++ [asst], i + 1,
               exec, [(asst, none)]⟩
          | some f =>
            match f tc.args with
            | .error pe =>
                ⟨.error pe, conv ++ [asst], i + 1, exec ++ [tc.name], [(asst, none)]⟩
            | .ok v =>
              let rt := openaiToolResultTurn tc.id v
              let out := openaiLoop reg oracle fuel (i + 1) (conv ++ [asst, rt])
                           (exec ++ [tc.name])
              ⟨out.result, out.conversation, out.exchanges, out.executed,
               (asst, some rt) :: out.trace⟩ := rfl

/-- The OpenAI loop only appends: its final conversation is its starting
conversation followed by the rendering of its trace. -/
lemma openaiLoop_conversation (reg : ToolDict)
    (oracle : Nat → Transport (List OpenAIMessageResponse)) :
    ∀ (fuel i : Nat) (conv : List OpenAIMessage) (exec : List String),
    (openaiLoop reg oracle fuel i conv exec).conversation
      = conv ++ flatTrace (openaiLoop reg oracle fuel i conv exec).trace := by
  intro fuel
  induction fuel with
  | zero => intro i conv exec; simp [openaiLoop, flatTrace]
  | succ fuel ih =>
    intro i conv exec
    rw [openaiLoop_succ]
    cases h : openaiChat (oracle i) with
    | error e => simp [flatTrace]
    | ok pr =>
      obtain ⟨resp, asst⟩ := pr
      cases resp with
      | text t => simp [flatTrace]
      | toolCall tc =>
        cases hl : lookupTool reg tc.name with
        | none => simp [flatTrace, hl]
        | some f =>
          cases hf : f tc.args with
          | error pe => simp [flatTrace, hl, hf]
          | ok v => simp [flatTrace, hl, hf, ih]

/-- Unfolding equation for one iteration of the Claude loop. -/
lemma claudeLoop_succ (reg : ToolDict)
    (oracle : Nat → Transport (List ClaudeBlock))
    (fuel i : Nat) (conv : List ClaudeMessage) (exec : List String) :
    claudeLoop reg oracle (fuel + 1) i conv exec =
      match claudeExchange (oracle i) with
      | .error e => ⟨.error ⟨.runtimeError, e⟩, conv, i + 1, exec, []⟩
      | .ok (resp, asst) =>
        match resp with
        | .text t => ⟨.ok t, conv ++ [asst], i + 1, exec, [(asst, none)]⟩
        | .toolCall tc =>
          match lookupTool reg tc.name with
          | none =>
              ⟨.error ⟨.keyError, toolNotFoundMsg tc.name⟩, conv ++ [asst], i + 1,
               exec, [(asst, none)]⟩
          | some f =>
            match f tc.args with
            | .error pe =>
                ⟨.error pe, conv ++ [asst], i + 1, exec ++ [tc.name], [(asst, none)]⟩
            | .ok v =>
              let rt := claudeToolResultTurn tc.id v
              let out := claudeLoop reg oracle fuel (i + 1) (conv ++ [asst, rt])
                           (exec ++ [tc.name])
              ⟨out.result, out.conversation, out.exchanges, out.executed,
               (asst, some rt) :: out.trace⟩ := rfl

/-- The Claude loop only appends: its final conversation is its starting
conversation followed by the rendering of its trace. -/
lemma claudeLoop_conversation (reg : ToolDict)
    (oracle : Nat → Transport (List ClaudeBlock)) :
    ∀ (fuel i : Nat) (conv : List ClaudeMessage) (exec : List String),
    (claudeLoop reg oracle fuel i conv exec).conversation
      = conv ++ flatTrace (claudeLoop reg oracle fuel i conv exec).trace := by
  intro fuel
  induction fuel with
  | zero => intro i conv exec; simp [claudeLoop, flatTrace]
  | succ fuel ih =>
    intro i conv exec
    rw [claudeLoop_succ]
    cases h : claudeExchange (oracle i) with
    | error e => simp [flatTrace]
    | ok pr =>
      obtain ⟨resp, asst⟩ := pr
      cases resp with
      | text t => simp [flatTrace]
      | toolCall tc =>
        cases hl : lookupTool reg tc.name with
        | none => simp [flatTrace, hl]
        | some f =>
          cases hf : f tc.args with
          | error pe => simp [flatTrace, hl, hf]
          | ok v => simp [flatTrace, hl, hf, ih]

/-- Claim C8: in every run invocation that reaches the loop, the
conversation is only appended to — the final conversation is exactly the
initial requester turn followed, for each iteration in order, by the
assistant turn of that exchange and, when a tool was executed, the
injected tool-result turn, with no reordering and no drops. -/
theorem claim8_append_only (tools : List PyTool) (query : String)
    (og : Nat → Transport GenWire)
    (oo : Nat → Transport (List OpenAIMessageResponse))
    (oc : Nat → Transport (List ClaudeBlock))
    (h : hasNamedTool tools = true) :
    (geminiRun tools og query).conversation
      = geminiInitTurn query :: flatTrace (geminiRun tools og query).trace ∧
    (openaiRun tools oo query).conversation
      = openaiInitTurn query :: flatTrace (openaiRun tools oo query).trace ∧
    (claudeRun tools oc query).conversation
      = claudeInitTurn query :: flatTrace (claudeRun tools oc query).trace := by
  refine ⟨?_, ?_, ?_⟩
  · have hg : geminiRun tools og query
        = geminiLoop (buildToolsDict tools) og MAX_TOOL_ITERATIONS 0
            [geminiInitTurn query] [] := by
      simp [geminiRun, h]
    rw [hg]
    simpa using geminiLoop_conversation (buildToolsDict tools) og
      MAX_TOOL_ITERATIONS 0 [geminiInitTurn query] []
  · have hg : openaiRun tools oo query
        = openaiLoop (buildToolsDict tools) oo MAX_TOOL_ITERATIONS 0
            [openaiInitTurn query] [] := by
      simp [openaiRun, h]
    rw [hg]
    simpa using openaiLoop_conversation (buildToolsDict tools) oo
      MAX_TOOL_ITERATIONS 0 [openaiInitTurn query] []
  · have hg : claudeRun tools oc query
        = claudeLoop (buildToolsDict tools) oc MAX_TOOL_ITERATIONS 0
            [claudeInitTurn query] [] := by
      simp [claudeRun, h]
    rw [hg]
    simpa using claudeLoop_conversation (buildToolsDict tools) oc
      MAX_TOOL_ITERATIONS 0 [claudeInitTurn query] []

/-- A sample OpenAI oracle: exchange 0 requests tool "t" with empty
object arguments under correlation id "id1", exchange 1 returns text. -/
def claim2Oracle : Nat → Transport (List OpenAIMessageResponse)
  | 0 => okEv [⟨"assistant", none,
      some [⟨"id1", "function", ⟨"t", .decoded (Json.obj [])⟩⟩]⟩]
  | _ => okEv [⟨"assistant", some "done", none⟩]

/-- Claim C2 (counterexample): in the OpenAI run path the payload
re-injected after a successful tool execution is the serialization of the
raw result, not of the wrapped object — with a tool returning the bare
scalar 42, the tool message appended to the conversation carries "42",
which differs from the serialization of the wrapped result. -/
theorem claim2_counterexample :
    ((openaiRun [⟨some "t", fun _ => .ok (Json.num 42)⟩] claim2Oracle
        "q").conversation.map (fun m => m.content)) = ["q", "", "42", "done"] ∧
    Json.render (wrap_tool_result (Json.num 42)) = "\x7b\"result\":42\x7d" ∧
    ("42" : String) ≠ "\x7b\"result\":42\x7d" := by
  refine ⟨rfl, ?_, by decide⟩
  simp [wrap_tool_result, Json.render, renderFields]
  rfl

/-- Claim C2 (amended): after a successful tool execution, the Gemini and
Claude run paths wrap the raw result through wrap_tool_result before
re-injecting it into the conversation — an object passes through, any
other shape is wrapped under the single synthetic key, so their payload
is always object-shaped — while the OpenAI run path re-injects the
serialization of the raw, unwrapped result value. -/
theorem claim2_wrapping :
    (∀ (reg : ToolDict) (oracle : Nat → Transport GenWire) (fuel i : Nat)
        (conv : List GeminiContent) (exec : List String)
        (tc : GeminiToolCall) (asst : GeminiContent) (f : ToolFn) (v : Json),
      geminiExchange (oracle i) = .ok (.toolCall tc, asst) →
      lookupTool reg tc.name = some f → f tc.args = .ok v →
      ∃ rest,
        (geminiLoop reg oracle (fuel + 1) i conv exec).conversation
          = conv ++ [asst,
              ⟨[.functionResponse tc.name (wrap_tool_result v)], some "function"⟩]
              ++ rest) ∧
    (∀ (reg : ToolDict) (oracle : Nat → Transport (List ClaudeBlock)) (fuel i : Nat)
        (conv : List ClaudeMessage) (exec : List String)
        (tc : ClaudeToolCall) (asst : ClaudeMessage) (f : ToolFn) (v : Json),
      claudeExchange (oracle i) = .ok (.toolCall tc, asst) →
      lookupTool reg tc.name = some f → f tc.args = .ok v →
      ∃ rest,
        (claudeLoop reg oracle (fuel + 1) i conv exec).conversation
          = conv ++ [asst, ⟨"user", [.toolResult tc.id (wrap_tool_result v)]⟩]
              ++ rest) ∧
    (∀ (reg : ToolDict) (oracle : Nat → Transport (List OpenAIMessageResponse))
        (fuel i : Nat) (conv : List OpenAIMessage) (exec : List String)
        (tc : OpenAIToolCall) (asst : OpenAIMessage) (f : ToolFn) (v : Json),
      openaiChat (oracle i) = .ok (.toolCall tc, asst) →
      lookupTool reg tc.name = some f → f tc.args = .ok v →
      ∃ rest,
        (openaiLoop reg oracle (fuel + 1) i conv exec).conversation
          = conv ++ [asst, ⟨"tool", Json.render v, none, some tc.id, none⟩]
              ++ rest) ∧
    (∀ v : Json, (wrap_tool_result v).isObj = true) := by
  refine ⟨?_, ?_, ?_, ?_⟩
  · intro reg oracle fuel i conv exec tc asst f v hex hl hf
    refine ⟨flatTrace (geminiLoop reg oracle fuel (i + 1)
        (conv ++ [asst, geminiToolResultTurn tc.name v]) (exec ++ [tc.name])).trace, ?_⟩
    rw [geminiLoop_succ, hex]
    simpa [hl, hf, geminiToolResultTurn] using
      geminiLoop_conversation reg oracle fuel (i + 1)
        (conv ++ [asst, geminiToolResultTurn tc.name v]) (exec ++ [tc.name])
  · intro reg oracle fuel i conv exec tc asst f v hex hl hf
    refine ⟨flatTrace (claudeLoop reg oracle fuel (i + 1)
        (conv ++ [asst, claudeToolResultTurn tc.id v]) (exec ++ [tc.name])).trace, ?_⟩
    rw [claudeLoop_succ, hex]
    simpa [hl, hf, claudeToolResultTurn] using
      claudeLoop_conversation reg oracle fuel (i + 1)
        (conv ++ [asst, claudeToolResultTurn tc.id v]) (exec ++ [tc.name])
  · intro reg oracle fuel i conv exec tc asst f v hex hl hf
    refine ⟨flatTrace (openaiLoop reg oracle fuel (i + 1)
        (conv ++ [asst, openaiToolResultTurn tc.id v]) (exec ++ [tc.name])).trace, ?_⟩
    rw [openaiLoop_succ, hex]
    simpa [hl, hf, openaiToolResultTurn] using
      openaiLoop_conversation reg oracle fuel (i + 1)
        (conv ++ [asst, openaiToolResultTurn tc.id v]) (exec ++ [tc.name])
  · intro v
    cases v <;> rfl

/-- When every exchange in the window classifies as a tool call for a
registered, succeeding tool, the Gemini loop consumes all its fuel and
ends with the max-iterations runtime error. -/
lemma geminiLoop_allTool (reg : ToolDict) (oracle : Nat → Transport GenWire) :
    ∀ (fuel start : Nat) (conv : List GeminiContent) (exec : List String),
    (∀ j, start ≤ j → j < start + fuel → ∃ tc asst f v,
        geminiExchange (oracle j) = Except.ok (GeminiResponse.toolCall tc, asst) ∧
        lookupTool reg tc.name = some f ∧ f tc.args = Except.ok v) →
    (geminiLoop reg oracle fuel start conv exec).result
        = Except.error ⟨PyExcKind.runtimeError, maxIterMsg⟩ ∧
    (geminiLoop reg oracle fuel start conv exec).exchanges = start + fuel := by
  intro fuel
  induction fuel with
  | zero => intro start conv exec _; exact ⟨rfl, rfl⟩
  | succ fuel ih =>
    intro start conv exec h
    obtain ⟨tc, asst, f, v, hex, hl, hf⟩ := h start (Nat.le_refl start) (by omega)
    rw [geminiLoop_succ, hex]
    have hrec := ih (start + 1) (conv ++ [asst, geminiToolResultTurn tc.name v])
      (exec ++ [tc.name]) (fun j h1 h2 => h j (by omega) (by omega))
    refine ⟨?_, ?_⟩
    · simpa [hl, hf] using hrec.1
    · simp only [hl, hf]
      simpa [Nat.add_comm, Nat.add_assoc, Nat.add_left_comm] using hrec.2

/-- When every exchange in the window classifies as a tool call for a
registered, succeeding tool, the OpenAI loop consumes all its fuel and
ends with the max-iterations runtime error. -/
lemma openaiLoop_allTool (reg : ToolDict)
    (oracle : Nat → Transport (List OpenAIMessageResponse)) :
    ∀ (fuel start : Nat) (conv : List OpenAIMessage) (exec : List String),
    (∀ j, start ≤ j → j < start + fuel → ∃ tc asst f v,
        openaiChat (oracle j) = Except.ok (OpenAIResponse.toolCall tc, asst) ∧
        lookupTool reg tc.name = some f ∧ f tc.args = Except.ok v) →
    (openaiLoop reg oracle fuel start conv exec).result
        = Except.error ⟨PyExcKind.runtimeError, maxIterMsg⟩ ∧
    (openaiLoop reg oracle fuel start conv exec).exchanges = start + fuel := by
  intro fuel
  induction fuel with
  | zero => intro start conv exec _; exact ⟨rfl, rfl⟩
  | succ fuel ih =>
    intro start conv exec h
    obtain ⟨tc, asst, f, v, hex, hl, hf⟩ := h start (Nat.le_refl start) (by omega)
    rw [openaiLoop_succ, hex]
    have hrec := ih (start + 1) (conv ++ [asst, openaiToolResultTurn tc.id v])
      (exec ++ [tc.name]) (fun j h1 h2 => h j (by omega) (by omega))
    refine ⟨?_, ?_⟩
    · simpa [hl, hf] using hrec.1
    · simp only [hl, hf]
      simpa [Nat.add_comm, Nat.add_assoc, Nat.add_left_comm] using hrec.2

/-- When every exchange in the window classifies as a tool call for a
registered, succeeding tool, the Claude loop consumes all its fuel and
ends with the max-iterations runtime error. -/
lemma claudeLoop_allTool (reg : ToolDict)
    (oracle : Nat → Transport (List ClaudeBlock)) :
    ∀ (fuel start : Nat) (conv : List ClaudeMessage) (exec : List String),
    (∀ j, start ≤ j → j < start + fuel → ∃ tc asst f v,
        claudeExchange (oracle j) = Except.ok (ClaudeResponse.toolCall tc, asst) ∧
        lookupTool reg tc.name = some f ∧ f tc.args = Except.ok v) →
    (claudeLoop reg oracle fuel start conv exec).result
        = Except.error ⟨PyExcKind.runtimeError, maxIterMsg⟩ ∧
    (claudeLoop reg oracle fuel start conv exec).exchanges = start + fuel := by
  intro fuel
  induction fuel with
  | zero => intro start conv exec _; exact ⟨rfl, rfl⟩
  | succ fuel ih =>
    intro start conv exec h
    obtain ⟨tc, asst, f, v, hex, hl, hf⟩ := h start (Nat.le_refl start) (by omega)
    rw [claudeLoop_succ, hex]
    have hrec := ih (start + 1) (conv ++ [asst, claudeToolResultTurn tc.id v])
      (exec ++ [tc.name]) (fun j h1 h2 => h j (by omega) (by omega))
    refine ⟨?_, ?_⟩
    · simpa [hl, hf] using hrec.1
    · simp only [hl, hf]
      simpa [Nat.add_comm, Nat.add_assoc, Nat.add_left_comm] using hrec.2

/-- Claim C3 (amended): in every run invocation whose exchanges all
classify as RequestedTool for a registered tool whose execution always
succeeds, the loop performs exactly 10 exchanges and then fails with the
runtime error "Max iterations reached without getting a final answer"
(raised directly; the LangRainError::MaxIterations(10) value defined in
error.rs is not the error produced), returning no text result. -/
theorem claim3_max_iterations :
    (∀ (tools : List PyTool) (oracle : Nat → Transport GenWire) (q : String),
      hasNamedTool tools = true →
      (∀ j, j < 10 → ∃ tc asst f v,
          geminiExchange (oracle j) = Except.ok (GeminiResponse.toolCall tc, asst) ∧
          lookupTool (buildToolsDict tools) tc.name = some f ∧
          f tc.args = Except.ok v) →
      (geminiRun tools oracle q).result
          = Except.error ⟨PyExcKind.runtimeError, maxIterMsg⟩ ∧
      (geminiRun tools oracle q).exchanges = 10) ∧
    (∀ (tools : List PyTool) (oracle : Nat → Transport (List OpenAIMessageResponse))
        (q : String),
      hasNamedTool tools = true →
      (∀ j, j < 10 → ∃ tc asst f v,
          openaiChat (oracle j) = Except.ok (OpenAIResponse.toolCall tc, asst) ∧
          lookupTool (buildToolsDict tools) tc.name = some f ∧
          f tc.args = Except.ok v) →
      (openaiRun tools oracle q).result
          = Except.error ⟨PyExcKind.runtimeError, maxIterMsg⟩ ∧
      (openaiRun tools oracle q).exchanges = 10) ∧
    (∀ (tools : List PyTool) (oracle : Nat → Transport (List ClaudeBlock)) (q : String),
      hasNamedTool tools = true →
      (∀ j, j < 10 → ∃ tc asst f v,
          claudeExchange (oracle j) = Except.ok (ClaudeResponse.toolCall tc, asst) ∧
          lookupTool (buildToolsDict tools) tc.name = some f ∧
          f tc.args = Except.ok v) →
      (claudeRun tools oracle q).result
          = Except.error ⟨PyExcKind.runtimeError, maxIterMsg⟩ ∧
      (claudeRun tools oracle q).exchanges = 10) := by
  refine ⟨?_, ?_, ?_⟩
  · intro tools oracle q ht hall
    have hg : geminiRun tools oracle q
        = geminiLoop (buildToolsDict tools) oracle MAX_TOOL_ITERATIONS 0
            [geminiInitTurn q] [] := by
      simp [geminiRun, ht]
    rw [hg]
    have := geminiLoop_allTool (buildToolsDict tools) oracle MAX_TOOL_ITERATIONS 0
      [geminiInitTurn q] []
      (by intro j h1 h2; exact hall j (by simpa [MAX_TOOL_ITERATIONS] using h2))
    simpa [MAX_TOOL_ITERATIONS] using this
  · intro tools oracle q ht hall
    have hg : openaiRun tools oracle q
        = openaiLoop (buildToolsDict tools) oracle MAX_TOOL_ITERATIONS 0
            [openaiInitTurn q] [] := by
      simp [openaiRun, ht]
    rw [hg]
    have := openaiLoop_allTool (buildToolsDict tools) oracle MAX_TOOL_ITERATIONS 0
      [openaiInitTurn q] []
      (by intro j h1 h2; exact hall j (by simpa [MAX_TOOL_ITERATIONS] using h2))
    simpa [MAX_TOOL_ITERATIONS] using this
  · intro tools oracle q ht hall
    have hg : claudeRun tools oracle q
        = claudeLoop (buildToolsDict tools) oracle MAX_TOOL_ITERATIONS 0
            [claudeInitTurn q] [] := by
      simp [claudeRun, ht]
    rw [hg]
    have := claudeLoop_allTool (buildToolsDict tools) oracle MAX_TOOL_ITERATIONS 0
      [claudeInitTurn q] []
      (by intro j h1 h2; exact hall j (by simpa [MAX_TOOL_ITERATIONS] using h2))
    simpa [MAX_TOOL_ITERATIONS] using this

/-- A tool that ignores its arguments and succeeds with null. -/
def nullTool : ToolFn := fun _ => Except.ok Json.null

/-- A Gemini wire response requesting tool "t" with null arguments. -/
def geminiToolWire : GenWire :=
  some [⟨[GeminiPart.functionCall "t" Json.null], some "model"⟩]

/-- The assistant turn the Gemini adapter extracts from geminiToolWire. -/
def geminiToolAsst : GeminiContent :=
  ⟨[GeminiPart.functionCall "t" Json.null], some "model"⟩

/-- Claim C3 (counterexample): with a backend that always requests the
registered, always-succeeding tool "t", the run fails after 10 exchanges
with the plain runtime error "Max iterations reached without getting a
final answer" — which is not the error that the code's own
LangRainError::MaxIterations(10) value converts to, since that one
renders the bound into its message. -/
theorem claim3_counterexample :
    (geminiRun [⟨some "t", nullTool⟩] (fun _ => okEv geminiToolWire) "q").result
      = Except.error ⟨PyExcKind.runtimeError, maxIterMsg⟩ ∧
    (geminiRun [⟨some "t", nullTool⟩] (fun _ => okEv geminiToolWire) "q").exchanges
      = 10 ∧
    (LangRainError.maxIterations 10).toPyErr
      = ⟨PyExcKind.runtimeError,
         "Max iterations (10) reached without getting a final answer"⟩ ∧
    ("Max iterations (10) reached without getting a final answer" : String)
      ≠ maxIterMsg := by
  refine ⟨rfl, rfl, rfl, by decide⟩

/-- Witness instantiating claim3_max_iterations at the concrete
always-tool-calling Gemini oracle. -/
theorem claim3_witness :
    hasNamedTool [⟨some "t", nullTool⟩] = true ∧
    ((geminiRun [⟨some "t", nullTool⟩] (fun _ => okEv geminiToolWire) "q").result
        = Except.error ⟨PyExcKind.runtimeError, maxIterMsg⟩ ∧
     (geminiRun [⟨some "t", nullTool⟩] (fun _ => okEv geminiToolWire) "q").exchanges
        = 10) :=
  ⟨rfl,
   claim3_max_iterations.1 [⟨some "t", nullTool⟩] (fun _ => okEv geminiToolWire) "q"
     rfl
     (fun _ _ => ⟨⟨"t", Json.null⟩, geminiToolAsst, nullTool, Json.null,
       rfl, rfl, rfl⟩)⟩

/-- When the first k exchanges of the window classify as tool calls for
registered, succeeding tools and exchange start+k requests a tool absent
from the dictionary, the Gemini loop stops right there with the
tool-not-found KeyError after start+k+1 exchanges in total, and every
tool name it executed either was executed before the window or resolves
in the dictionary. -/
lemma geminiLoop_toolNotFound (reg : ToolDict) (oracle : Nat → Transport GenWire) :
    ∀ (k fuel start : Nat) (conv : List GeminiContent) (exec : List String)
      (tc : GeminiToolCall) (asst : GeminiContent),
    k < fuel →
    (∀ j, start ≤ j → j < start + k → ∃ tc2 asst2 f v,
        geminiExchange (oracle j) = Except.ok (GeminiResponse.toolCall tc2, asst2) ∧
        lookupTool reg tc2.name = some f ∧ f tc2.args = Except.ok v) →
    geminiExchange (oracle (start + k))
        = Except.ok (GeminiResponse.toolCall tc, asst) →
    lookupTool reg tc.name = none →
    (geminiLoop reg oracle fuel start conv exec).result
        = Except.error ⟨PyExcKind.keyError, toolNotFoundMsg tc.name⟩ ∧
    (geminiLoop reg oracle fuel start conv exec).exchanges = start + k + 1 ∧
    (∀ n, n ∈ (geminiLoop reg oracle fuel start conv exec).executed →
        n ∈ exec ∨ ∃ f, lookupTool reg n = some f) := by
  intro k
  induction k with
  | zero =>
    intro fuel start conv exec tc asst hk hall hex hl
    cases fuel with
    | zero => omega
    | succ fuel =>
      rw [Nat.add_zero] at hex
      rw [geminiLoop_succ, hex]
      refine ⟨by simp [hl], by simp [hl], ?_⟩
      intro n hn
      simp only [hl] at hn
      exact Or.inl hn
  | succ k ih =>
    intro fuel start conv exec tc asst hk hall hex hl
    cases fuel with
    | zero => omega
    | succ fuel =>
      obtain ⟨tc2, asst2, f, v, hex0, hl0, hf0⟩ :=
        hall start (Nat.le_refl start) (by omega)
      rw [geminiLoop_succ, hex0]
      simp only [hl0, hf0]
      have hex1 : geminiExchange (oracle (start + 1 + k))
          = Except.ok (GeminiResponse.toolCall tc, asst) := by
        have harith : start + 1 + k = start + (k + 1) := by omega
        rw [harith]; exact hex
      have hrec := ih fuel (start + 1)
        (conv ++ [asst2, geminiToolResultTurn tc2.name v]) (exec ++ [tc2.name])
        tc asst (by omega) (fun j h1 h2 => hall j (by omega) (by omega)) hex1 hl
      refine ⟨hrec.1, by rw [hrec.2.1]; omega, ?_⟩
      intro n hn
      rcases hrec.2.2 n hn with hmem | hres
      · rcases List.mem_append.1 hmem with hmem2 | hmem2
        · exact Or.inl hmem2
        · simp only [List.mem_singleton] at hmem2
          subst hmem2
          exact Or.inr ⟨f, hl0⟩
      · exact Or.inr hres

/-- The analogue of geminiLoop_toolNotFound for the OpenAI loop. -/
lemma openaiLoop_toolNotFound (reg : ToolDict)
    (oracle : Nat → Transport (List OpenAIMessageResponse)) :
    ∀ (k fuel start : Nat) (conv : List OpenAIMessage) (exec : List String)
      (tc : OpenAIToolCall) (asst : OpenAIMessage),
    k < fuel →
    (∀ j, start ≤ j → j < start + k → ∃ tc2 asst2 f v,
        openaiChat (oracle j) = Except.ok (OpenAIResponse.toolCall tc2, asst2) ∧
        lookupTool reg tc2.name = some f ∧ f tc2.args = Except.ok v) →
    openaiChat (oracle (start + k))
        = Except.ok (OpenAIResponse.toolCall tc, asst) →
    lookupTool reg tc.name = none →
    (openaiLoop reg oracle fuel start conv exec).result
        = Except.error ⟨PyExcKind.keyError, toolNotFoundMsg tc.name⟩ ∧
    (openaiLoop reg oracle fuel start conv exec).exchanges = start + k + 1 ∧
    (∀ n, n ∈ (openaiLoop reg oracle fuel start conv exec).executed →
        n ∈ exec ∨ ∃ f, lookupTool reg n = some f) := by
  intro k
  induction k with
  | zero =>
    intro fuel start conv exec tc asst hk hall hex hl
    cases fuel with
    | zero => omega
    | succ fuel =>
      rw [Nat.add_zero] at hex
      rw [openaiLoop_succ, hex]
      refine ⟨by simp [hl], by simp [hl], ?_⟩
      intro n hn
      simp only [hl] at hn
      exact Or.inl hn
  | succ k ih =>
    intro fuel start conv exec tc asst hk hall hex hl
    cases fuel with
    | zero => omega
    | succ fuel =>
      obtain ⟨tc2, asst2, f, v, hex0, hl0, hf0⟩ :=
        hall start (Nat.le_refl start) (by omega)
      rw [openaiLoop_succ, hex0]
      simp only [hl0, hf0]
      have hex1 : openaiChat (oracle (start + 1 + k))
          = Except.ok (OpenAIResponse.toolCall tc, asst) := by
        have harith : start + 1 + k = start + (k + 1) := by omega
        rw [harith]; exact hex
      have hrec := ih fuel (start + 1)
        (conv ++ [asst2, openaiToolResultTurn tc2.id v]) (exec ++ [tc2.name])
        tc asst (by omega) (fun j h1 h2 => hall j (by omega) (by omega)) hex1 hl
      refine ⟨hrec.1, by rw [hrec.2.1]; omega, ?_⟩
      intro n hn
      rcases hrec.2.2 n hn with hmem | hres
      · rcases List.mem_append.1 hmem with hmem2 | hmem2
        · exact Or.inl hmem2
        · simp only [List.mem_singleton] at hmem2
          subst hmem2
          exact Or.inr ⟨f, hl0⟩
      · exact Or.inr hres

/-- The analogue of geminiLoop_toolNotFound for the Claude loop. -/
lemma claudeLoop_toolNotFound (reg : ToolDict)
    (oracle : Nat → Transport (List ClaudeBlock)) :
    ∀ (k fuel start : Nat) (conv : List ClaudeMessage) (exec : List String)
      (tc : ClaudeToolCall) (asst : ClaudeMessage),
    k < fuel →
    (∀ j, start ≤ j → j < start + k → ∃ tc2 asst2 f v,
        claudeExchange (oracle j) = Except.ok (ClaudeResponse.toolCall tc2, asst2) ∧
        lookupTool reg tc2.name = some f ∧ f tc2.args = Except.ok v) →
    claudeExchange (oracle (start + k))
        = Except.ok (ClaudeResponse.toolCall tc, asst) →
    lookupTool reg tc.name = none →
    (claudeLoop reg oracle fuel start conv exec).result
        = Except.error ⟨PyExcKind.keyError, toolNotFoundMsg tc.name⟩ ∧
    (claudeLoop reg oracle fuel start conv exec).exchanges = start + k + 1 ∧
    (∀ n, n ∈ (claudeLoop reg oracle fuel start conv exec).executed →
        n ∈ exec ∨ ∃ f, lookupTool reg n = some f) := by
  intro k
  induction k with
  | zero =>
    intro fuel start conv exec tc asst hk hall hex hl
    cases fuel with
    | zero => omega
    | succ fuel =>
      rw [Nat.add_zero] at hex
      rw [claudeLoop_succ, hex]
      refine ⟨by simp [hl], by simp [hl], ?_⟩
      intro n hn
      simp only [hl] at hn
      exact Or.inl hn
  | succ k ih =>
    intro fuel start conv exec tc asst hk hall hex hl
    cases fuel with
    | zero => omega
    | succ fuel =>
      obtain ⟨tc2, asst2, f, v, hex0, hl0, hf0⟩ :=
        hall start (Nat.le_refl start) (by omega)
      rw [claudeLoop_succ, hex0]
      simp only [hl0, hf0]
      have hex1 : claudeExchange (oracle (start + 1 + k))
          = Except.ok (ClaudeResponse.toolCall tc, asst) := by
        have harith : start + 1 + k = start + (k + 1) := by omega
        rw [harith]; exact hex
      have hrec := ih fuel (start + 1)
        (conv ++ [asst2, claudeToolResultTurn tc2.id v]) (exec ++ [tc2.name])
        tc asst (by omega) (fun j h1 h2 => hall j (by omega) (by omega)) hex1 hl
      refine ⟨hrec.1, by rw [hrec.2.1]; omega, ?_⟩
      intro n hn
      rcases hrec.2.2 n hn with hmem | hres
      · rcases List.mem_append.1 hmem with hmem2 | hmem2
        · exact Or.inl hmem2
        · simp only [List.mem_singleton] at hmem2
          subst hmem2
          exact Or.inr ⟨f, hl0⟩
      · exact Or.inr hres

/-- Claim C4: in every run invocation, when the exchange at any iteration
k classifies as RequestedTool with a name absent from the tools
dictionary (the loop having reached that iteration through registered,
succeeding tool calls), the run fails immediately with the
tool-not-found KeyError naming that tool (the exception class
LangRainError::ToolNotFound also maps to), the requested tool is never
executed, and no further exchange occurs after that point: exactly k+1
exchanges happen in total. -/
theorem claim4_tool_not_found :
    (∀ (tools : List PyTool) (oracle : Nat → Transport GenWire) (q : String)
        (k : Nat) (tc : GeminiToolCall) (asst : GeminiContent),
      hasNamedTool tools = true →
      k < 10 →
      (∀ j, j < k → ∃ tc2 asst2 f v,
          geminiExchange (oracle j) = Except.ok (GeminiResponse.toolCall tc2, asst2) ∧
          lookupTool (buildToolsDict tools) tc2.name = some f ∧
          f tc2.args = Except.ok v) →
      geminiExchange (oracle k) = Except.ok (GeminiResponse.toolCall tc, asst) →
      lookupTool (buildToolsDict tools) tc.name = none →
      (geminiRun tools oracle q).result
          = Except.error ⟨PyExcKind.keyError, toolNotFoundMsg tc.name⟩ ∧
      (geminiRun tools oracle q).exchanges = k + 1 ∧
      tc.name ∉ (geminiRun tools oracle q).executed) ∧
    (∀ (tools : List PyTool) (oracle : Nat → Transport (List OpenAIMessageResponse))
        (q : String) (k : Nat) (tc : OpenAIToolCall) (asst : OpenAIMessage),
      hasNamedTool tools = true →
      k < 10 →
      (∀ j, j < k → ∃ tc2 asst2 f v,
          openaiChat (oracle j) = Except.ok (OpenAIResponse.toolCall tc2, asst2) ∧
          lookupTool (buildToolsDict tools) tc2.name = some f ∧
          f tc2.args = Except.ok v) →
      openaiChat (oracle k) = Except.ok (OpenAIResponse.toolCall tc, asst) →
      lookupTool (buildToolsDict tools) tc.name = none →
      (openaiRun tools oracle q).result
          = Except.error ⟨PyExcKind.keyError, toolNotFoundMsg tc.name⟩ ∧
      (openaiRun tools oracle q).exchanges = k + 1 ∧
      tc.name ∉ (openaiRun tools oracle q).executed) ∧
    (∀ (tools : List PyTool) (oracle : Nat → Transport (List ClaudeBlock))
        (q : String) (k : Nat) (tc : ClaudeToolCall) (asst : ClaudeMessage),
      hasNamedTool tools = true →
      k < 10 →
      (∀ j, j < k → ∃ tc2 asst2 f v,
          claudeExchange (oracle j) = Except.ok (ClaudeResponse.toolCall tc2, asst2) ∧
          lookupTool (buildToolsDict tools) tc2.name = some f ∧
          f tc2.args = Except.ok v) →
      claudeExchange (oracle k) = Except.ok (ClaudeResponse.toolCall tc, asst) →
      lookupTool (buildToolsDict tools) tc.name = none →
      (claudeRun tools oracle q).result
          = Except.error ⟨PyExcKind.keyError, toolNotFoundMsg tc.name⟩ ∧
      (claudeRun tools oracle q).exchanges = k + 1 ∧
      tc.name ∉ (claudeRun tools oracle q).executed) := by
  refine ⟨?_, ?_, ?_⟩
  · intro tools oracle q k tc asst ht hk hall hex hl
    have hg : geminiRun tools oracle q
        = geminiLoop (buildToolsDict tools) oracle MAX_TOOL_ITERATIONS 0
            [geminiInitTurn q] [] := by
      simp [geminiRun, ht]
    have hx : geminiExchange (oracle (0 + k))
        = Except.ok (GeminiResponse.toolCall tc, asst) := by
      rw [Nat.zero_add]; exact hex
    have h := geminiLoop_toolNotFound (buildToolsDict tools) oracle k
      MAX_TOOL_ITERATIONS 0 [geminiInitTurn q] [] tc asst
      (by simpa [MAX_TOOL_ITERATIONS] using hk)
      (fun j h1 h2 => hall j (by omega)) hx hl
    rw [hg]
    refine ⟨h.1, by rw [h.2.1]; omega, ?_⟩
    intro hc
    rcases h.2.2 tc.name hc with hmem | ⟨f, hf⟩
    · simp at hmem
    · rw [hl] at hf; cases hf
  · intro tools oracle q k tc asst ht hk hall hex hl
    have hg : openaiRun tools oracle q
        = openaiLoop (buildToolsDict tools) oracle MAX_TOOL_ITERATIONS 0
            [openaiInitTurn q] [] := by
      simp [openaiRun, ht]
    have hx : openaiChat (oracle (0 + k))
        = Except.ok (OpenAIResponse.toolCall tc, asst) := by
      rw [Nat.zero_add]; exact hex
    have h := openaiLoop_toolNotFound (buildToolsDict tools) oracle k
      MAX_TOOL_ITERATIONS 0 [openaiInitTurn q] [] tc asst
      (by simpa [MAX_TOOL_ITERATIONS] using hk)
      (fun j h1 h2 => hall j (by omega)) hx hl
    rw [hg]
    refine ⟨h.1, by rw [h.2.1]; omega, ?_⟩
    intro hc
    rcases h.2.2 tc.name hc with hmem | ⟨f, hf⟩
    · simp at hmem
    · rw [hl] at hf; cases hf
  · intro tools oracle q k tc asst ht hk hall hex hl
    have hg : claudeRun tools oracle q
        = claudeLoop (buildToolsDict tools) oracle MAX_TOOL_ITERATIONS 0
            [claudeInitTurn q] [] := by
      simp [claudeRun, ht]
    have hx : claudeExchange (oracle (0 + k))
        = Except.ok (ClaudeResponse.toolCall tc, asst) := by
      rw [Nat.zero_add]; exact hex
    have h := claudeLoop_toolNotFound (buildToolsDict tools) oracle k
      MAX_TOOL_ITERATIONS 0 [claudeInitTurn q] [] tc asst
      (by simpa [MAX_TOOL_ITERATIONS] using hk)
      (fun j h1 h2 => hall j (by omega)) hx hl
    rw [hg]
    refine ⟨h.1, by rw [h.2.1]; omega, ?_⟩
    intro hc
    rcases h.2.2 tc.name hc with hmem | ⟨f, hf⟩
    · simp at hmem
    · rw [hl] at hf; cases hf

/-- A Gemini oracle whose first exchange requests the registered tool
"bar" and whose second requests the unregistered tool "foo". -/
def claim4Oracle : Nat → Transport GenWire
  | 0 => okEv (some [⟨[GeminiPart.functionCall "bar" Json.null], some "model"⟩])
  | _ => okEv (some [⟨[GeminiPart.functionCall "foo" Json.null], some "model"⟩])

/-- Witness instantiating claim4_tool_not_found at iteration k = 1: the
backend first requests the registered tool "bar", then requests "foo"
while only "bar" is registered; the run stops with the KeyError after
exactly two exchanges, "foo" never executed. -/
theorem claim4_witness :
    hasNamedTool [⟨some "bar", nullTool⟩] = true ∧
    (geminiRun [⟨some "bar", nullTool⟩] claim4Oracle "q").result
      = Except.error ⟨PyExcKind.keyError, toolNotFoundMsg "foo"⟩ ∧
    (geminiRun [⟨some "bar", nullTool⟩] claim4Oracle "q").exchanges = 2 ∧
    ("foo" : String) ∉ (geminiRun [⟨some "bar", nullTool⟩] claim4Oracle "q").executed := by
  refine ⟨rfl, ?_⟩
  exact claim4_tool_not_found.1 [⟨some "bar", nullTool⟩] claim4Oracle "q" 1
    ⟨"foo", Json.null⟩ ⟨[GeminiPart.functionCall "foo" Json.null], some "model"⟩
    rfl (by omega)
    (by
      intro j hj
      have hj0 : j = 0 := by omega
      subst hj0
      exact ⟨⟨"bar", Json.null⟩,
        ⟨[GeminiPart.functionCall "bar" Json.null], some "model"⟩,
        nullTool, Json.null, rfl, rfl, rfl⟩)
    rfl rfl

/-- Claim C6: for every model configuration, run with zero nameable tools
fails immediately with the ValueError configuration message, performing
zero exchanges and never degrading to single-shot behavior, on all three
backends. -/
theorem claim6_requires_tools (tools : List PyTool)
    (og : Nat → Transport GenWire)
    (oo : Nat → Transport (List OpenAIMessageResponse))
    (oc : Nat → Transport (List ClaudeBlock)) (q : String)
    (h : hasNamedTool tools = false) :
    geminiRun tools og q
      = ⟨Except.error ⟨PyExcKind.valueError, zeroToolsMsg⟩, [], 0, [], []⟩ ∧
    openaiRun tools oo q
      = ⟨Except.error ⟨PyExcKind.valueError, zeroToolsMsg⟩, [], 0, [], []⟩ ∧
    claudeRun tools oc q
      = ⟨Except.error ⟨PyExcKind.valueError, zeroToolsMsg⟩, [], 0, [], []⟩ := by
  refine ⟨?_, ?_, ?_⟩ <;> simp [geminiRun, openaiRun, claudeRun, h]

/-- Witness instantiating claim6_requires_tools with an unnameable tool
supplied (covering the tools-given-but-unnameable edge) on arbitrary
failing oracles. -/
theorem claim6_witness :
    hasNamedTool [⟨none, nullTool⟩] = false ∧
    geminiRun [⟨none, nullTool⟩] (fun _ => Transport.netFail "down") "q"
      = ⟨Except.error ⟨PyExcKind.valueError, zeroToolsMsg⟩, [], 0, [], []⟩ ∧
    openaiRun [⟨none, nullTool⟩] (fun _ => Transport.netFail "down") "q"
      = ⟨Except.error ⟨PyExcKind.valueError, zeroToolsMsg⟩, [], 0, [], []⟩ ∧
    claudeRun [⟨none, nullTool⟩] (fun _ => Transport.netFail "down") "q"
      = ⟨Except.error ⟨PyExcKind.valueError, zeroToolsMsg⟩, [], 0, [], []⟩ :=
  ⟨rfl, claim6_requires_tools [⟨none, nullTool⟩]
    (fun _ => Transport.netFail "down") (fun _ => Transport.netFail "down")
    (fun _ => Transport.netFail "down") "q" rfl⟩

/-- Claim C7: a single-shot invoke whose exchange classifies as a tool
call succeeds, returning the tool-call descriptor (name plus serialized
arguments) to the caller rather than failing, on all three backends. The
invoke embeddings take no tools dictionary and consume exactly one
transport event, mirroring that the source paths never consult the
registry, never execute a tool, and perform exactly one exchange. -/
theorem claim7_invoke_surfaces_tool_call :
    (∀ (ev : Transport GenWire) (tc : GeminiToolCall),
      geminiInvokeCore ev = Except.ok (GeminiResponse.toolCall tc) →
      geminiInvoke ev
        = Except.ok (AgentResponse.toolCall tc.name (Json.render tc.args))) ∧
    (∀ (ev : Transport (List OpenAIMessageResponse)) (tc : OpenAIToolCall)
        (asst : OpenAIMessage),
      openaiChat ev = Except.ok (OpenAIResponse.toolCall tc, asst) →
      openaiInvoke ev
        = Except.ok (AgentResponse.toolCall tc.name (Json.render tc.args))) ∧
    (∀ (ev : Transport (List ClaudeBlock)) (tc : ClaudeToolCall)
        (asst : ClaudeMessage),
      claudeExchange ev = Except.ok (ClaudeResponse.toolCall tc, asst) →
      claudeInvoke ev
        = Except.ok (AgentResponse.toolCall tc.name (Json.render tc.args))) := by
  refine ⟨?_, ?_, ?_⟩
  · intro ev tc h; simp [geminiInvoke, h]
  · intro ev tc asst h; simp [openaiInvoke, h]
  · intro ev tc asst h; simp [claudeInvoke, h]

/-- Witness instantiating claim7_invoke_surfaces_tool_call on a Gemini
wire response that requests a tool. -/
theorem claim7_witness :
    geminiInvokeCore (okEv geminiToolWire)
      = Except.ok (GeminiResponse.toolCall ⟨"t", Json.null⟩) ∧
    geminiInvoke (okEv geminiToolWire)
      = Except.ok (AgentResponse.toolCall "t" (Json.render Json.null)) :=
  ⟨rfl, claim7_invoke_surfaces_tool_call.1 (okEv geminiToolWire) ⟨"t", Json.null⟩ rfl⟩

/-- Dict lookup after a dict set: the set key maps to the new value,
every other key is unchanged. -/
lemma lookupTool_dictSet (d : ToolDict) (m : String) (g : ToolFn) (n : String) :
    lookupTool (dictSet d m g) n = if m = n then some g else lookupTool d n := by
  induction d with
  | nil => rfl
  | cons kv rest ih =>
    obtain ⟨k, h⟩ := kv
    by_cases hkm : k = m
    · subst hkm
      by_cases hkn : k = n <;> simp [dictSet, lookupTool, hkn]
    · by_cases hkn : k = n <;> by_cases hmn : m = n <;>
        simp_all [dictSet, lookupTool, ih]

/-- Keys resolvable in the dictionary built by run() come from supplied
tools whose discoverable name is that key. -/
lemma lookupTool_buildAux :
    ∀ (ts : List PyTool) (d : ToolDict) (n : String) (f : ToolFn),
    lookupTool (ts.foldl
      (fun d t => match t.name with | some m => dictSet d m t.fn | none => d) d) n
        = some f →
    lookupTool d n = some f ∨ ∃ t, t ∈ ts ∧ t.name = some n := by
  intro ts
  induction ts with
  | nil => intro d n f h; exact Or.inl h
  | cons t rest ih =>
    intro d n f h
    simp only [List.foldl_cons] at h
    rcases ih _ n f h with h1 | h2
    · cases hn : t.name with
      | none => rw [hn] at h1; exact Or.inl h1
      | some m =>
        rw [hn] at h1
        rw [lookupTool_dictSet] at h1
        by_cases hmn : m = n
        · exact Or.inr ⟨t, List.mem_cons_self t rest, by rw [hn, hmn]⟩
        · rw [if_neg hmn] at h1; exact Or.inl h1
    · obtain ⟨u, hu, hn⟩ := h2
      exact Or.inr ⟨u, List.mem_cons_of_mem t hu, hn⟩

/-- With no nameable tool supplied, the built dictionary is empty. -/
lemma buildToolsDict_empty :
    ∀ ts : List PyTool, hasNamedTool ts = false → buildToolsDict ts = [] := by
  intro ts
  induction ts with
  | nil => intro _; rfl
  | cons t rest ih =>
    intro h
    simp only [hasNamedTool, List.any_cons, Bool.or_eq_false_iff] at h
    obtain ⟨h1, h2⟩ := h
    cases hn : t.name with
    | some m => rw [hn] at h1; simp at h1
    | none =>
      have : buildToolsDict (t :: rest) = buildToolsDict rest := by
        simp [buildToolsDict, List.foldl_cons, hn]
      rw [this]
      exact ih h2

/-- Claim C9: a supplied tool lacking a discoverable name is silently
excluded from the registry without any error; only nameable tools become
resolvable; and a supplied tool list whose members are all unnameable
yields an empty registry and is treated by run() as zero registered
tools. -/
theorem claim9_unnameable_tools :
    (∀ (t : PyTool) (rest : List PyTool), t.name = none →
        buildToolsDict (t :: rest) = buildToolsDict rest) ∧
    (∀ (ts : List PyTool) (n : String) (f : ToolFn),
        lookupTool (buildToolsDict ts) n = some f →
        ∃ t, t ∈ ts ∧ t.name = some n) ∧
    (∀ ts : List PyTool, hasNamedTool ts = false → buildToolsDict ts = []) ∧
    (∀ (ts : List PyTool) (oracle : Nat → Transport GenWire) (q : String),
        hasNamedTool ts = false →
        geminiRun ts oracle q
          = ⟨Except.error ⟨PyExcKind.valueError, zeroToolsMsg⟩, [], 0, [], []⟩) := by
  refine ⟨?_, ?_, buildToolsDict_empty, ?_⟩
  · intro t rest hn
    simp [buildToolsDict, List.foldl_cons, hn]
  · intro ts n f h
    rcases lookupTool_buildAux ts [] n f h with h1 | h2
    · cases h1
    · exact h2
  · intro ts oracle q h
    simp [geminiRun, h]

/-- Witness instantiating claim9_unnameable_tools: an unnameable tool in
front of a named one is dropped, the named key resolves from the named
tool, and an all-unnameable list builds the empty dictionary and makes
run() fail with the configuration ValueError. -/
theorem claim9_witness :
    buildToolsDict [⟨none, nullTool⟩, ⟨some "a", nullTool⟩]
      = buildToolsDict [⟨some "a", nullTool⟩] ∧
    (∃ t, t ∈ [(⟨none, nullTool⟩ : PyTool), ⟨some "a", nullTool⟩] ∧
      t.name = some "a") ∧
    buildToolsDict [⟨none, nullTool⟩] = [] ∧
    geminiRun [⟨none, nullTool⟩] (fun _ => okEv geminiToolWire) "q"
      = ⟨Except.error ⟨PyExcKind.valueError, zeroToolsMsg⟩, [], 0, [], []⟩ :=
  ⟨claim9_unnameable_tools.1 ⟨none, nullTool⟩ [⟨some "a", nullTool⟩] rfl,
   claim9_unnameable_tools.2.1 [⟨none, nullTool⟩, ⟨some "a", nullTool⟩] "a" nullTool rfl,
   claim9_unnameable_tools.2.2.1 [⟨none, nullTool⟩] rfl,
   claim9_unnameable_tools.2.2.2 [⟨none, nullTool⟩] (fun _ => okEv geminiToolWire) "q" rfl⟩

/-- Two strings with distinct characters at a common index stay distinct
under arbitrary suffixes. -/
lemma append_ne_of_data_get (a b : String) (i : Nat) (c d : Char)
    (ha : a.data[i]? = some c) (hb : b.data[i]? = some d) (hcd : c ≠ d)
    (m n : String) : a ++ m ≠ b ++ n := by
  intro h
  have hd := congrArg String.data h
  rw [String.data_append, String.data_append] at hd
  have la : i < a.data.length := (List.getElem?_eq_some.1 ha).1
  have lb : i < b.data.length := (List.getElem?_eq_some.1 hb).1
  have h1 : (a.data ++ m.data)[i]? = some c := by
    rw [List.getElem?_append_left la]; exact ha
  have h2 : (b.data ++ n.data)[i]? = some d := by
    rw [List.getElem?_append_left lb]; exact hb
  rw [hd] at h1
  rw [h1] at h2
  exact hcd (Option.some.inj h2)

/-- A string with a suffix stays distinct from a plain string differing
at a common index. -/
lemma append_ne_string (a b : String) (i : Nat) (c d : Char)
    (ha : a.data[i]? = some c) (hb : b.data[i]? = some d) (hcd : c ≠ d)
    (m : String) : a ++ m ≠ b := by
  intro h
  apply append_ne_of_data_get a b i c d ha hb hcd m ""
  rw [h]; simp

/-- Claim C5 (counterexample): a non-success HTTP status is surfaced by
the Claude adapter as the formatted string "API Error {status}: {body}",
not as a LangRainError value — and the code's only String-to-LangRainError
conversion (From<String>) classifies that very string as ParseError, not
as Api carrying the numeric status and the body. -/
theorem claim5_counterexample :
    claudeExchange (Transport.resp
        ⟨⟨500, "500 Internal Server Error"⟩, "boom", Except.error "x"⟩)
      = Except.error "API Error 500 Internal Server Error: boom" ∧
    LangRainError.ofString "API Error 500 Internal Server Error: boom"
      = LangRainError.parseError "API Error 500 Internal Server Error: boom" ∧
    LangRainError.ofString "API Error 500 Internal Server Error: boom"
      ≠ LangRainError.api 500 "boom" :=
  ⟨rfl, rfl, by decide⟩

/-- Claim C5 (amended): every adapter exchange surfaces transport and
status failures to its caller as error strings distinguishing the four
failure classes by message — "Failed to send request: {err}" for a
transport-level failure, "API Error {status}: {body}" carrying the status
rendering and the raw body, "Failed to parse response: {err}" for a
structurally unparseable body, and a fixed no-content message for a
well-formed body with no usable content. The adapters return plain
strings rather than LangRainError values; the four message forms are
pairwise distinct; and the run loop surfaces an adapter failure to its
caller at once, with no retry. -/
theorem claim5_error_surfacing :
    (∀ m : String,
      claudeExchange (Transport.netFail m)
        = Except.error ("Failed to send request: " ++ m) ∧
      geminiExchange (Transport.netFail m)
        = Except.error ("Failed to send request: " ++ m) ∧
      openaiChat (Transport.netFail m)
        = Except.error ("Failed to send request: " ++ m)) ∧
    (∀ (st : HttpStatus) (bt : String) (pc : Except String (List ClaudeBlock))
        (pg : Except String GenWire) (po : Except String (List OpenAIMessageResponse)),
      httpIsSuccess st.code = false →
      claudeExchange (Transport.resp ⟨st, bt, pc⟩)
        = Except.error ("API Error " ++ st.display ++ ": " ++ bt) ∧
      geminiExchange (Transport.resp ⟨st, bt, pg⟩)
        = Except.error ("API Error " ++ st.display ++ ": " ++ bt) ∧
      openaiChat (Transport.resp ⟨st, bt, po⟩)
        = Except.error ("API Error " ++ st.display ++ ": " ++ bt)) ∧
    (∀ (st : HttpStatus) (bt m : String),
      httpIsSuccess st.code = true →
      claudeExchange (Transport.resp ⟨st, bt, Except.error m⟩)
        = Except.error ("Failed to parse response: " ++ m) ∧
      geminiExchange (Transport.resp ⟨st, bt, Except.error m⟩)
        = Except.error ("Failed to parse response: " ++ m) ∧
      openaiChat (Transport.resp ⟨st, bt, Except.error m⟩)
        = Except.error ("Failed to parse response: " ++ m)) ∧
    (claudeExchange (okEv []) = Except.error "No response generated." ∧
     geminiExchange (okEv none) = Except.error "No valid response from Gemini" ∧
     geminiExchange (okEv (some []))
       = Except.error "No valid response from Gemini" ∧
     openaiChat (okEv []) = Except.error "No response generated.") ∧
    (∀ m s : String,
      ("Failed to send request: " ++ m) ≠ ("API Error " ++ s) ∧
      ("Failed to send request: " ++ m) ≠ ("Failed to parse response: " ++ s) ∧
      ("API Error " ++ m) ≠ ("Failed to parse response: " ++ s)) ∧
    (∀ m : String,
      ("Failed to send request: " ++ m) ≠ "No response generated." ∧
      ("API Error " ++ m) ≠ "No response generated." ∧
      ("Failed to parse response: " ++ m) ≠ "No response generated." ∧
      ("Failed to send request: " ++ m) ≠ "No valid response from Gemini" ∧
      ("API Error " ++ m) ≠ "No valid response from Gemini" ∧
      ("Failed to parse response: " ++ m) ≠ "No valid response from Gemini") ∧
    (∀ (tools : List PyTool) (oracle : Nat → Transport GenWire) (q m : String),
      hasNamedTool tools = true → oracle 0 = Transport.netFail m →
      (geminiRun tools oracle q).result
        = Except.error ⟨PyExcKind.runtimeError, "Failed to send request: " ++ m⟩ ∧
      (geminiRun tools oracle q).exchanges = 1) := by
  refine ⟨fun m => ⟨rfl, rfl, rfl⟩, ?_, ?_, ⟨rfl, rfl, rfl, rfl⟩, ?_, ?_, ?_⟩
  · intro st bt pc pg po h
    refine ⟨?_, ?_, ?_⟩ <;>
      (simp [claudeExchange, geminiExchange, openaiChat, sendAndParse, h]; try rfl)
  · intro st bt m h
    refine ⟨?_, ?_, ?_⟩ <;>
      (simp [claudeExchange, geminiExchange, openaiChat, sendAndParse, h]; try rfl)
  · intro m s
    exact ⟨append_ne_of_data_get "Failed to send request: " "API Error " 0 'F' 'A'
        rfl rfl (by decide) m s,
      append_ne_of_data_get "Failed to send request: " "Failed to parse response: "
        10 's' 'p' rfl rfl (by decide) m s,
      append_ne_of_data_get "API Error " "Failed to parse response: " 0 'A' 'F'
        rfl rfl (by decide) m s⟩
  · intro m
    exact ⟨append_ne_string "Failed to send request: " "No response generated."
        0 'F' 'N' rfl rfl (by decide) m,
      append_ne_string "API Error " "No response generated." 0 'A' 'N'
        rfl rfl (by decide) m,
      append_ne_string "Failed to parse response: " "No response generated."
        0 'F' 'N' rfl rfl (by decide) m,
      append_ne_string "Failed to send request: " "No valid response from Gemini"
        0 'F' 'N' rfl rfl (by decide) m,
      append_ne_string "API Error " "No valid response from Gemini" 0 'A' 'N'
        rfl rfl (by decide) m,
      append_ne_string "Failed to parse response: " "No valid response from Gemini"
        0 'F' 'N' rfl rfl (by decide) m⟩
  · intro tools oracle q m ht ho
    have hex : geminiExchange (oracle 0)
        = Except.error ("Failed to send request: " ++ m) := by rw [ho]; rfl
    have hg : geminiRun tools oracle q
        = geminiLoop (buildToolsDict tools) oracle (9 + 1) 0 [geminiInitTurn q] [] := by
      simp [geminiRun, ht, MAX_TOOL_ITERATIONS]
    rw [hg, geminiLoop_succ, hex]
    exact ⟨rfl, rfl⟩

/-- Witness instantiating claim2_wrapping on the Gemini run path with a
tool succeeding with null. -/
theorem claim2_witness :
    geminiExchange (okEv geminiToolWire)
      = Except.ok (GeminiResponse.toolCall ⟨"t", Json.null⟩, geminiToolAsst) ∧
    lookupTool [("t", nullTool)] "t" = some nullTool ∧
    nullTool Json.null = Except.ok Json.null ∧
    (∃ rest,
      (geminiLoop [("t", nullTool)] (fun _ => okEv geminiToolWire) 1 0 [] []).conversation
        = [] ++ [geminiToolAsst,
            ⟨[GeminiPart.functionResponse "t" (wrap_tool_result Json.null)],
             some "function"⟩] ++ rest) :=
  ⟨rfl, rfl, rfl,
   claim2_wrapping.1 [("t", nullTool)] (fun _ => okEv geminiToolWire) 0 0 [] []
     ⟨"t", Json.null⟩ geminiToolAsst nullTool Json.null rfl rfl rfl⟩

/-- Witness instantiating claim5_error_surfacing: a concrete status
failure, a concrete parse failure, and a concrete transport failure
surfaced through a run. -/
theorem claim5_witness :
    httpIsSuccess 500 = false ∧
    claudeExchange (Transport.resp
        ⟨⟨500, "500 Internal Server Error"⟩, "boom", Except.error "x"⟩)
      = Except.error ("API Error " ++ "500 Internal Server Error" ++ ": " ++ "boom") ∧
    httpIsSuccess 200 = true ∧
    geminiExchange (Transport.resp ⟨⟨200, "200 OK"⟩, "", Except.error "bad json"⟩)
      = Except.error ("Failed to parse response: " ++ "bad json") ∧
    hasNamedTool [⟨some "t", nullTool⟩] = true ∧
    (geminiRun [⟨some "t", nullTool⟩] (fun _ => Transport.netFail "down") "q").result
      = Except.error ⟨PyExcKind.runtimeError, "Failed to send request: " ++ "down"⟩ ∧
    (geminiRun [⟨some "t", nullTool⟩] (fun _ => Transport.netFail "down") "q").exchanges
      = 1 :=
  ⟨rfl,
   (claim5_error_surfacing.2.1 ⟨500, "500 Internal Server Error"⟩ "boom"
     (Except.error "x") (Except.error "x") (Except.error "x") rfl).1,
   rfl,
   (claim5_error_surfacing.2.2.1 ⟨200, "200 OK"⟩ "" "bad json" rfl).2.1,
   rfl,
   (claim5_error_surfacing.2.2.2.2.2.2 [⟨some "t", nullTool⟩]
     (fun _ => Transport.netFail "down") "q" "down" rfl rfl).1,
   (claim5_error_surfacing.2.2.2.2.2.2 [⟨some "t", nullTool⟩]
     (fun _ => Transport.netFail "down") "q" "down" rfl rfl).2⟩

/-- A Gemini text-only wire response. -/
def geminiTextWire : GenWire := some [⟨[GeminiPart.text "done"], some "model"⟩]

/-- An OpenAI text-only wire response. -/
def openaiTextWire : List OpenAIMessageResponse := [⟨"assistant", some "done", none⟩]

/-- A Claude text-only wire response. -/
def claudeTextWire : List ClaudeBlock := [ClaudeBlock.text "done"]

/-- Witness instantiating claim8_append_only on concrete single-text
runs for all three backends. -/
theorem claim8_witness :
    hasNamedTool [⟨some "t", nullTool⟩] = true ∧
    ((geminiRun [⟨some "t", nullTool⟩] (fun _ => okEv geminiTextWire) "q").conversation
        = geminiInitTurn "q"
          :: flatTrace (geminiRun [⟨some "t", nullTool⟩]
               (fun _ => okEv geminiTextWire) "q").trace ∧
     (openaiRun [⟨some "t", nullTool⟩] (fun _ => okEv openaiTextWire) "q").conversation
        = openaiInitTurn "q"
          :: flatTrace (openaiRun [⟨some "t", nullTool⟩]
               (fun _ => okEv openaiTextWire) "q").trace ∧
     (claudeRun [⟨some "t", nullTool⟩] (fun _ => okEv claudeTextWire) "q").conversation
        = claudeInitTurn "q"
          :: flatTrace (claudeRun [⟨some "t", nullTool⟩]
               (fun _ => okEv claudeTextWire) "q").trace) :=
  ⟨rfl, claim8_append_only [⟨some "t", nullTool⟩] "q"
    (fun _ => okEv geminiTextWire) (fun _ => okEv openaiTextWire)
    (fun _ => okEv claudeTextWire) rfl⟩
